import Mathlib

/-!
Verification of the MIPS 5-stage pipeline simulator (pipeline_simulator.asm).

The assembly program keeps its whole state in the .data section; we model that
memory as the structure SimState below, one field per data label.  Each
assembly routine (process_WB_stage, detect_hazards, ...) becomes a Lean
function on SimState, translated branch by branch from the source, and the
main simulation loop becomes simulation_loop with a structural fuel equal to
the 500-cycle hard cap of the source.
-/

set_option linter.all false
set_option maxRecDepth 40000

/-- One pipeline stage slot, mirroring the 6-word stage record of the data
section: instruction word, program counter, valid flag, and the decoded
register fields src1, src2, dest stored as 32-bit words that the program
treats as signed (so the value -1 means none). -/
structure PipelineSlot where
  instr : Nat
  pc : Nat
  valid : Nat
  src1 : Int
  src2 : Int
  dest : Int
deriving Repr, DecidableEq

/-- One 9-word record of cycle_history: cycle number, the five stage
instruction words, hazard type, stall flag and forward flag. -/
structure HistoryEntry where
  cycle_num : Nat
  if_instr : Nat
  id_instr : Nat
  ex_instr : Nat
  mem_instr : Nat
  wb_instr : Nat
  hazard_type : Nat
  stall_flag : Nat
  forward_flag : Nat
deriving Repr, DecidableEq

/-- The whole mutable memory of the simulator, one field per data label of
pipeline_simulator.asm.  The two configuration words are modelled as Bool
because the program only ever tests them against zero. -/
structure SimState where
  instruction_count : Nat
  instruction_buffer : List Nat
  enable_forwarding : Bool
  enable_branch_predict : Bool
  stage_IF : PipelineSlot
  stage_ID : PipelineSlot
  stage_EX : PipelineSlot
  stage_MEM : PipelineSlot
  stage_WB : PipelineSlot
  hazard_detected : Nat
  hazard_type : Nat
  stall_required : Nat
  forward_from : Nat
  forward_to : Nat
  forward_reg : Int
  total_cycles : Nat
  total_instructions : Nat
  stall_cycles : Nat
  forward_count : Nat
  branch_stalls : Nat
  load_use_stalls : Nat
  raw_hazards : Nat
  cpi_numerator : Nat
  cpi_denominator : Nat
  history_count : Nat
  cycle_history : List HistoryEntry
  register_scoreboard : List Nat
  current_cycle : Nat
  pc_current : Nat
  simulation_done : Nat
deriving Repr, DecidableEq

/-- decode_instruction: extract (src1, src2, dest) from an instruction word,
following the opcode dispatch of the source (R-type with jr and jalr special
cases, loads 32..37, stores 40..43, branches 4..7, j, jal, other I-type). -/
def decode_instruction (w : Nat) : Int × Int × Int :=
  if w = 0 then (-1, -1, -1)
  else
    let opcode := (w >>> 26) &&& 63
    let rs : Int := ((w >>> 21) &&& 31 : Nat)
    let rt : Int := ((w >>> 16) &&& 31 : Nat)
    if opcode = 0 then
      let rd : Int := ((w >>> 11) &&& 31 : Nat)
      let funct := w &&& 63
      if funct = 8 then (rs, -1, -1)
      else if funct = 9 then (rs, -1, rd)
      else (rs, rt, rd)
    else if 32 ≤ opcode ∧ opcode < 38 then (rs, -1, rt)
    else if 40 ≤ opcode ∧ opcode < 44 then (rs, rt, -1)
    else if 4 ≤ opcode ∧ opcode < 8 then (rs, rt, -1)
    else if opcode = 2 then (-1, -1, -1)
    else if opcode = 3 then (-1, -1, 31)
    else (rs, -1, rt)

/-- is_load_instruction: opcode in 32 (lb), 33 (lh), 35 (lw), 36 (lbu), 37 (lhu). -/
def is_load_instruction (w : Nat) : Bool :=
  let op := (w >>> 26) &&& 63
  op == 32 || op == 33 || op == 35 || op == 36 || op == 37

/-- is_branch_instruction: j, jal, beq, bne, blez, bgtz, and the R-type
jumps jr and jalr. -/
def is_branch_instruction (w : Nat) : Bool :=
  let op := (w >>> 26) &&& 63
  op == 2 || op == 3 || op == 4 || op == 5 || op == 6 || op == 7 ||
    (op == 0 && (let funct := w &&& 63; funct == 8 || funct == 9))

/-- process_WB_stage: if the WB slot is valid, count the completion and clear
the scoreboard entry of its dest register (when dest is non-negative); then
copy the MEM slot into WB. -/
def process_WB_stage (s : SimState) : SimState :=
  let s :=
    if s.stage_WB.valid ≠ 0 then
      let s1 := { s with total_instructions := s.total_instructions + 1 }
      if 0 ≤ s1.stage_WB.dest then
        { s1 with register_scoreboard :=
            s1.register_scoreboard.set s1.stage_WB.dest.toNat 0 }
      else s1
    else s
  { s with stage_WB := s.stage_MEM }

/-- process_MEM_stage: unconditionally copy the EX slot into MEM, then mark
the scoreboard entry of the copied dest register with 4 (MEM stage) when dest
is non-negative.  Note the source does not test the valid flag here. -/
def process_MEM_stage (s : SimState) : SimState :=
  let s1 := { s with stage_MEM := s.stage_EX }
  if 0 ≤ s1.stage_MEM.dest then
    { s1 with register_scoreboard :=
        s1.register_scoreboard.set s1.stage_MEM.dest.toNat 4 }
  else s1

/-- process_EX_stage: on stall insert a bubble (zero word, invalid, register
fields -1); else copy the ID slot into EX and mark the scoreboard entry of
the copied dest register with 3 (EX stage) when dest is non-negative.  As in
the source, the valid flag is not tested before the scoreboard update. -/
def process_EX_stage (s : SimState) : SimState :=
  if s.stall_required ≠ 0 then
    { s with stage_EX := ⟨0, 0, 0, -1, -1, -1⟩ }
  else
    let s1 := { s with stage_EX := s.stage_ID }
    if 0 ≤ s1.stage_EX.dest then
      { s1 with register_scoreboard :=
          s1.register_scoreboard.set s1.stage_EX.dest.toNat 3 }
    else s1

/-- process_ID_stage: on stall insert a bubble into ID; else copy only the
instruction, pc and valid words from IF (the source copies 3 words here, not
6), and decode the register fields only when the copied valid flag is set, so
an invalid slot keeps the stale src1, src2, dest of its previous occupant. -/
def process_ID_stage (s : SimState) : SimState :=
  if s.stall_required ≠ 0 then
    { s with stage_ID := ⟨0, 0, 0, -1, -1, -1⟩ }
  else
    let id0 := { s.stage_ID with instr := s.stage_IF.instr,
                                 pc := s.stage_IF.pc,
                                 valid := s.stage_IF.valid }
    if id0.valid = 0 then { s with stage_ID := id0 }
    else
      let d := decode_instruction id0.instr
      { s with stage_ID := { id0 with src1 := d.1, src2 := d.2.1, dest := d.2.2 } }

/-- process_IF_stage: on stall leave IF unchanged and count a stall cycle;
else fetch the next buffered word when the fetch index has not reached the
instruction count (writing only the instruction, pc and valid words of the IF
slot), or write an invalid zero bubble when it has. -/
def process_IF_stage (s : SimState) : SimState :=
  if s.stall_required ≠ 0 then
    { s with stall_cycles := s.stall_cycles + 1 }
  else if s.pc_current < s.instruction_count then
    { s with
      stage_IF := { s.stage_IF with
        instr := s.instruction_buffer.getD s.pc_current 0,
        pc := 4194304 + 4 * s.pc_current,
        valid := 1 },
      pc_current := s.pc_current + 1 }
  else
    { s with stage_IF := { s.stage_IF with instr := 0, pc := 0, valid := 0 } }

/-- check_control label of detect_hazards: if the ID instruction word w is a
branch or jump, flag a control hazard (type 3) and either stall (prediction
off) or only count (prediction on), counting branch_stalls in both cases;
otherwise fall through to no_hazard, which clears the detected flag, the
hazard type and the stall flag (but not the forward fields). -/
def check_control (w : Nat) (s : SimState) : SimState :=
  if is_branch_instruction w then
    let s1 := { s with hazard_detected := 1, hazard_type := 3 }
    if s1.enable_branch_predict then
      { s1 with branch_stalls := s1.branch_stalls + 1 }
    else
      { s1 with stall_required := 1, branch_stalls := s1.branch_stalls + 1 }
  else
    { s with hazard_detected := 0, hazard_type := 0, stall_required := 0 }

/-- check_src2 label of detect_hazards: skip when src2 is negative or zero or
its scoreboard entry is 0; otherwise set hazard_detected (the source does not
touch raw_hazards here), stall on a load-use (entry 3 with a load in EX,
counting load_use_stalls and skipping the control check), else when
forwarding is enabled only bump forward_count (the source records no forward
source for src2) and fall through to the control check, else stall with
type 1 and skip the control check. -/
def check_src2 (w : Nat) (t3 : Int) (s : SimState) : SimState :=
  if t3 < 0 then check_control w s
  else if t3 = 0 then check_control w s
  else
    let t6 := s.register_scoreboard.getD t3.toNat 0
    if t6 = 0 then check_control w s
    else
      let s1 := { s with hazard_detected := 1 }
      if t6 = 3 ∧ is_load_instruction s1.stage_EX.instr then
        { s1 with hazard_type := 2, stall_required := 1,
                  load_use_stalls := s1.load_use_stalls + 1 }
      else if s1.enable_forwarding then
        check_control w { s1 with forward_count := s1.forward_count + 1 }
      else
        { s1 with stall_required := 1, hazard_type := 1 }

/-- detect_hazards: reset the hazard words (forward_reg is not reset in the
source), return through the no_hazard reset when ID is invalid, then check
src1 (writing 1 into raw_hazards, a plain store in the source, not an
increment), with the load-use test first (the source loads the EX
instruction word for this test), then forwarding by producer stage in source
order MEM, WB, EX, then stall; a src1 stall or load-use jumps directly to
hazard_done, a successful forward falls through to check_src2. -/
def detect_hazards (s : SimState) : SimState :=
  let s0 := { s with hazard_detected := 0, hazard_type := 0, stall_required := 0,
                     forward_from := 0, forward_to := 0 }
  if s0.stage_ID.valid = 0 then
    { s0 with hazard_detected := 0, hazard_type := 0, stall_required := 0 }
  else
    let w := s0.stage_ID.instr
    let t2 := s0.stage_ID.src1
    let t3 := s0.stage_ID.src2
    if t2 < 0 then check_src2 w t3 s0
    else if t2 = 0 then check_src2 w t3 s0
    else
      let t6 := s0.register_scoreboard.getD t2.toNat 0
      if t6 = 0 then check_src2 w t3 s0
      else
        let s1 := { s0 with hazard_detected := 1, raw_hazards := 1 }
        if t6 = 3 ∧ is_load_instruction s1.stage_EX.instr then
          { s1 with hazard_type := 2, stall_required := 1,
                    load_use_stalls := s1.load_use_stalls + 1 }
        else if s1.enable_forwarding = false then
          { s1 with stall_required := 1, hazard_type := 1 }
        else if t6 = 4 then
          check_src2 w t3
            { s1 with forward_from := 4, forward_to := 2, forward_reg := t2,
                      forward_count := s1.forward_count + 1, hazard_type := 1 }
        else if t6 = 5 then
          check_src2 w t3
            { s1 with forward_from := 5, forward_to := 2, forward_reg := t2,
                      forward_count := s1.forward_count + 1 }
        else if t6 = 3 then
          check_src2 w t3
            { s1 with forward_from := 3, forward_to := 2, forward_reg := t2,
                      forward_count := s1.forward_count + 1, hazard_type := 1 }
        else
          { s1 with stall_required := 1, hazard_type := 1 }

/-- record_cycle_history: append one entry while fewer than 50 are recorded
(max_history_cycles); once full, later cycles are simply not recorded.  The
forward flag is 1 exactly when forward_from is positive. -/
def record_cycle_history (s : SimState) : SimState :=
  if s.history_count < 50 then
    { s with
      cycle_history := s.cycle_history ++
        [⟨s.current_cycle, s.stage_IF.instr, s.stage_ID.instr, s.stage_EX.instr,
          s.stage_MEM.instr, s.stage_WB.instr, s.hazard_type, s.stall_required,
          if 0 < s.forward_from then 1 else 0⟩],
      history_count := s.history_count + 1 }
  else s

/-- The termination condition tested by check_simulation_done: the fetch
index has consumed all instructions and all five stage slots are invalid. -/
def simulation_done_cond (s : SimState) : Bool :=
  s.instruction_count ≤ s.pc_current &&
  s.stage_IF.valid == 0 && s.stage_ID.valid == 0 && s.stage_EX.valid == 0 &&
  s.stage_MEM.valid == 0 && s.stage_WB.valid == 0

/-- check_simulation_done: write 1 or 0 into simulation_done according to the
termination condition. -/
def check_simulation_done (s : SimState) : SimState :=
  if simulation_done_cond s then { s with simulation_done := 1 }
  else { s with simulation_done := 0 }

/-- One iteration of simulation_loop: bump the cycle counters, then run the
stages in the fixed source order WB, MEM, detect_hazards, EX, ID, IF,
record_cycle_history, check_simulation_done. -/
def run_cycle (s : SimState) : SimState :=
  let s1 := { s with current_cycle := s.current_cycle + 1,
                     total_cycles := s.total_cycles + 1 }
  check_simulation_done (record_cycle_history (process_IF_stage
    (process_ID_stage (process_EX_stage (detect_hazards
      (process_MEM_stage (process_WB_stage s1)))))))

/-- simulation_loop: run cycles until simulation_done is set or the current
cycle reaches the hard cap of 500.  The fuel argument is only the structural
bound for Lean; with fuel 500 and a starting cycle of 0 the cap always fires
before the fuel runs out. -/
def simulation_loop : Nat → SimState → SimState
  | 0, s => s
  | fuel + 1, s =>
    if s.simulation_done = 0 then
      let t := run_cycle s
      if 500 ≤ t.current_cycle then t else simulation_loop fuel t
    else s

/-- calculate_metrics: fixed-point CPI, numerator = cycles * 100 and
denominator = completed instructions; when no instruction completed the
source stores numerator 0 and denominator 1. -/
def calculate_metrics (s : SimState) : SimState :=
  if s.total_instructions = 0 then
    { s with cpi_numerator := 0, cpi_denominator := 1 }
  else
    { s with cpi_numerator := s.total_cycles * 100,
             cpi_denominator := s.total_instructions }

/-- init_pipeline and the start of main: all stage slots, the scoreboard, the
metrics and the simulation words are cleared to zero (so the register fields
of the initial slots are 0, not -1). -/
def init_pipeline (instrs : List Nat) (f b : Bool) : SimState :=
  { instruction_count := instrs.length
    instruction_buffer := instrs
    enable_forwarding := f
    enable_branch_predict := b
    stage_IF := ⟨0, 0, 0, 0, 0, 0⟩
    stage_ID := ⟨0, 0, 0, 0, 0, 0⟩
    stage_EX := ⟨0, 0, 0, 0, 0, 0⟩
    stage_MEM := ⟨0, 0, 0, 0, 0, 0⟩
    stage_WB := ⟨0, 0, 0, 0, 0, 0⟩
    hazard_detected := 0, hazard_type := 0, stall_required := 0
    forward_from := 0, forward_to := 0, forward_reg := 0
    total_cycles := 0, total_instructions := 0, stall_cycles := 0
    forward_count := 0, branch_stalls := 0, load_use_stalls := 0
    raw_hazards := 0, cpi_numerator := 0, cpi_denominator := 0
    history_count := 0, cycle_history := []
    register_scoreboard := List.replicate 32 0
    current_cycle := 0, pc_current := 0, simulation_done := 0 }

/-- main: initialize, skip the loop entirely when the instruction count is
zero, then compute the final metrics. -/
def simulate (instrs : List Nat) (f b : Bool) : SimState :=
  let s := init_pipeline instrs f b
  if s.instruction_count = 0 then calculate_metrics s
  else calculate_metrics (simulation_loop 500 s)

/-- States reached after n executed cycles, used to speak about individual
cycles of a run. -/
def cycle_iterate : Nat → SimState → SimState
  | 0, s => s
  | n + 1, s => cycle_iterate n (run_cycle s)

/-- Scoreboard range property: every scoreboard word is 0 (available),
3 (EX) or 4 (MEM). -/
def scoreboard_range (s : SimState) : Prop :=
  ∀ x ∈ s.register_scoreboard, x = 0 ∨ x = 3 ∨ x = 4

/-- Range property for the forward_from word. -/
def forward_from_range (s : SimState) : Prop :=
  s.forward_from = 0 ∨ s.forward_from = 3 ∨ s.forward_from = 4

/-- Combined invariant for claim C10. -/
def pipe_inv (s : SimState) : Prop :=
  scoreboard_range s ∧ forward_from_range s

/-- The spec scenario program: add $t2,$t0,$t1; lw $t3,0($t2); add $t4,$t3,$t2. -/
def prog_scenario : List Nat :=
  [(8 <<< 21) + (9 <<< 16) + (10 <<< 11) + 32,
   (35 <<< 26) + (10 <<< 21) + (11 <<< 16),
   (11 <<< 21) + (10 <<< 16) + (12 <<< 11) + 32]

/-- A two-instruction dependent pair: add $t2,$t0,$t1; add $t5,$t2,$t3. -/
def prog_dependent : List Nat :=
  [(8 <<< 21) + (9 <<< 16) + (10 <<< 11) + 32,
   (10 <<< 21) + (11 <<< 16) + (13 <<< 11) + 32]

/-- The canonical load-use pair of the spec: lw $t0,0($sp); add $t1,$t0,$t2. -/
def prog_loaduse : List Nat :=
  [(35 <<< 26) + (29 <<< 21) + (8 <<< 16),
   (8 <<< 21) + (10 <<< 16) + (9 <<< 11) + 32]

/-- A three-instruction chain with register hazards in two distinct cycles:
add $t2,$t0,$t1; add $t3,$t2,$t1; add $t4,$t3,$t1. -/
def prog_chain : List Nat :=
  [(8 <<< 21) + (9 <<< 16) + (10 <<< 11) + 32,
   (10 <<< 21) + (9 <<< 16) + (11 <<< 11) + 32,
   (11 <<< 21) + (9 <<< 16) + (12 <<< 11) + 32]

/-- A single register-register add: add $t2,$t0,$t1. -/
def prog_single : List Nat := [(8 <<< 21) + (9 <<< 16) + (10 <<< 11) + 32]

/-- A single conditional branch: beq $t0,$t1,+1. -/
def prog_branch : List Nat := [(4 <<< 26) + (8 <<< 21) + (9 <<< 16) + 1]

/-- A 501-word all-NOP program, long enough that the pipeline cannot drain
within the 500-cycle cap. -/
def prog_cap : List Nat := List.replicate 501 0

/-- Default history entry used as the getD fallback in statements. -/
def hist0 : HistoryEntry := ⟨0, 0, 0, 0, 0, 0, 0, 0, 0⟩

/-- A concrete hazard-detection state: a valid add word in ID with src1 = 5,
no src2, and register 5 marked as produced by MEM in the scoreboard. -/
def fwd_example_state : SimState :=
  { init_pipeline [] true false with
    stage_ID := ⟨32, 0, 1, 5, -1, -1⟩,
    register_scoreboard := (List.replicate 32 0).set 5 4 }

/-- A concrete hazard-detection state whose ID instruction names register 0
for both operands while register 0 is marked busy in the scoreboard. -/
def zero_reg_state : SimState :=
  { init_pipeline [] true false with
    stage_ID := ⟨32, 0, 1, 0, 0, 5⟩,
    register_scoreboard := (List.replicate 32 0).set 0 3 }

/-! Field-transport lemmas: which state words each routine leaves unchanged. -/

lemma getD_mem_or (l : List Nat) (n d : Nat) : l.getD n d ∈ l ∨ l.getD n d = d := by
  induction l generalizing n with
  | nil => simp [List.getD_nil]
  | cons a t ih =>
    cases n with
    | zero => simp [List.getD_cons_zero]
    | succ m =>
      rw [List.getD_cons_succ]
      rcases ih m with h | h
      · exact Or.inl (List.mem_cons_of_mem a h)
      · exact Or.inr h

lemma sb_set_range {l : List Nat} {v : Nat}
    (hl : ∀ x ∈ l, x = 0 ∨ x = 3 ∨ x = 4) (hv : v = 0 ∨ v = 3 ∨ v = 4) (n : Nat) :
    ∀ x ∈ l.set n v, x = 0 ∨ x = 3 ∨ x = 4 := by
  intro x hx
  rcases List.mem_or_eq_of_mem_set hx with h | h
  · exact hl x h
  · rw [h]; exact hv

@[simp] lemma wb_cc (s : SimState) :
    (process_WB_stage s).current_cycle = s.current_cycle := by
  unfold process_WB_stage; try dsimp only
  split_ifs <;> rfl

@[simp] lemma wb_tc (s : SimState) :
    (process_WB_stage s).total_cycles = s.total_cycles := by
  unfold process_WB_stage; try dsimp only
  split_ifs <;> rfl

@[simp] lemma wb_raw (s : SimState) :
    (process_WB_stage s).raw_hazards = s.raw_hazards := by
  unfold process_WB_stage; try dsimp only
  split_ifs <;> rfl

@[simp] lemma wb_ff (s : SimState) :
    (process_WB_stage s).forward_from = s.forward_from := by
  unfold process_WB_stage; try dsimp only
  split_ifs <;> rfl

@[simp] lemma mem_cc (s : SimState) :
    (process_MEM_stage s).current_cycle = s.current_cycle := by
  unfold process_MEM_stage; try dsimp only
  split_ifs <;> rfl

@[simp] lemma mem_tc (s : SimState) :
    (process_MEM_stage s).total_cycles = s.total_cycles := by
  unfold process_MEM_stage; try dsimp only
  split_ifs <;> rfl

@[simp] lemma mem_raw (s : SimState) :
    (process_MEM_stage s).raw_hazards = s.raw_hazards := by
  unfold process_MEM_stage; try dsimp only
  split_ifs <;> rfl

@[simp] lemma mem_ff (s : SimState) :
    (process_MEM_stage s).forward_from = s.forward_from := by
  unfold process_MEM_stage; try dsimp only
  split_ifs <;> rfl

@[simp] lemma ex_cc (s : SimState) :
    (process_EX_stage s).current_cycle = s.current_cycle := by
  unfold process_EX_stage; try dsimp only
  split_ifs <;> rfl

@[simp] lemma ex_tc (s : SimState) :
    (process_EX_stage s).total_cycles = s.total_cycles := by
  unfold process_EX_stage; try dsimp only
  split_ifs <;> rfl

@[simp] lemma ex_raw (s : SimState) :
    (process_EX_stage s).raw_hazards = s.raw_hazards := by
  unfold process_EX_stage; try dsimp only
  split_ifs <;> rfl

@[simp] lemma ex_ff (s : SimState) :
    (process_EX_stage s).forward_from = s.forward_from := by
  unfold process_EX_stage; try dsimp only
  split_ifs <;> rfl

@[simp] lemma id_cc (s : SimState) :
    (process_ID_stage s).current_cycle = s.current_cycle := by
  unfold process_ID_stage; try dsimp only
  split_ifs <;> rfl

@[simp] lemma id_tc (s : SimState) :
    (process_ID_stage s).total_cycles = s.total_cycles := by
  unfold process_ID_stage; try dsimp only
  split_ifs <;> rfl

@[simp] lemma id_raw (s : SimState) :
    (process_ID_stage s).raw_hazards = s.raw_hazards := by
  unfold process_ID_stage; try dsimp only
  split_ifs <;> rfl

@[simp] lemma id_ff (s : SimState) :
    (process_ID_stage s).forward_from = s.forward_from := by
  unfold process_ID_stage; try dsimp only
  split_ifs <;> rfl

@[simp] lemma id_sb (s : SimState) :
    (process_ID_stage s).register_scoreboard = s.register_scoreboard := by
  unfold process_ID_stage; try dsimp only
  split_ifs <;> rfl

@[simp] lemma fetch_cc (s : SimState) :
    (process_IF_stage s).current_cycle = s.current_cycle := by
  unfold process_IF_stage; try dsimp only
  split_ifs <;> rfl

@[simp] lemma fetch_tc (s : SimState) :
    (process_IF_stage s).total_cycles = s.total_cycles := by
  unfold process_IF_stage; try dsimp only
  split_ifs <;> rfl

@[simp] lemma fetch_raw (s : SimState) :
    (process_IF_stage s).raw_hazards = s.raw_hazards := by
  unfold process_IF_stage; try dsimp only
  split_ifs <;> rfl

@[simp] lemma fetch_ff (s : SimState) :
    (process_IF_stage s).forward_from = s.forward_from := by
  unfold process_IF_stage; try dsimp only
  split_ifs <;> rfl

@[simp] lemma fetch_sb (s : SimState) :
    (process_IF_stage s).register_scoreboard = s.register_scoreboard := by
  unfold process_IF_stage; try dsimp only
  split_ifs <;> rfl

@[simp] lemma rec_cc (s : SimState) :
    (record_cycle_history s).current_cycle = s.current_cycle := by
  unfold record_cycle_history; try dsimp only
  split_ifs <;> rfl

@[simp] lemma rec_tc (s : SimState) :
    (record_cycle_history s).total_cycles = s.total_cycles := by
  unfold record_cycle_history; try dsimp only
  split_ifs <;> rfl

@[simp] lemma rec_raw (s : SimState) :
    (record_cycle_history s).raw_hazards = s.raw_hazards := by
  unfold record_cycle_history; try dsimp only
  split_ifs <;> rfl

@[simp] lemma rec_ff (s : SimState) :
    (record_cycle_history s).forward_from = s.forward_from := by
  unfold record_cycle_history; try dsimp only
  split_ifs <;> rfl

@[simp] lemma rec_sb (s : SimState) :
    (record_cycle_history s).register_scoreboard = s.register_scoreboard := by
  unfold record_cycle_history; try dsimp only
  split_ifs <;> rfl

@[simp] lemma chk_cc (s : SimState) :
    (check_simulation_done s).current_cycle = s.current_cycle := by
  unfold check_simulation_done; try dsimp only
  split_ifs <;> rfl

@[simp] lemma chk_tc (s : SimState) :
    (check_simulation_done s).total_cycles = s.total_cycles := by
  unfold check_simulation_done; try dsimp only
  split_ifs <;> rfl

@[simp] lemma chk_raw (s : SimState) :
    (check_simulation_done s).raw_hazards = s.raw_hazards := by
  unfold check_simulation_done; try dsimp only
  split_ifs <;> rfl

@[simp] lemma chk_ff (s : SimState) :
    (check_simulation_done s).forward_from = s.forward_from := by
  unfold check_simulation_done; try dsimp only
  split_ifs <;> rfl

@[simp] lemma chk_sb (s : SimState) :
    (check_simulation_done s).register_scoreboard = s.register_scoreboard := by
  unfold check_simulation_done; try dsimp only
  split_ifs <;> rfl

@[simp] lemma ctl_cc (w : Nat) (s : SimState) :
    (check_control w s).current_cycle = s.current_cycle := by
  unfold check_control; try dsimp only
  split_ifs <;> rfl

@[simp] lemma ctl_tc (w : Nat) (s : SimState) :
    (check_control w s).total_cycles = s.total_cycles := by
  unfold check_control; try dsimp only
  split_ifs <;> rfl

@[simp] lemma ctl_raw (w : Nat) (s : SimState) :
    (check_control w s).raw_hazards = s.raw_hazards := by
  unfold check_control; try dsimp only
  split_ifs <;> rfl

@[simp] lemma ctl_ff (w : Nat) (s : SimState) :
    (check_control w s).forward_from = s.forward_from := by
  unfold check_control; try dsimp only
  split_ifs <;> rfl

@[simp] lemma ctl_sb (w : Nat) (s : SimState) :
    (check_control w s).register_scoreboard = s.register_scoreboard := by
  unfold check_control; try dsimp only
  split_ifs <;> rfl

@[simp] lemma cs2_cc (w : Nat) (t3 : Int) (s : SimState) :
    (check_src2 w t3 s).current_cycle = s.current_cycle := by
  unfold check_src2; try dsimp only
  split_ifs <;> simp

@[simp] lemma cs2_tc (w : Nat) (t3 : Int) (s : SimState) :
    (check_src2 w t3 s).total_cycles = s.total_cycles := by
  unfold check_src2; try dsimp only
  split_ifs <;> simp

@[simp] lemma cs2_raw (w : Nat) (t3 : Int) (s : SimState) :
    (check_src2 w t3 s).raw_hazards = s.raw_hazards := by
  unfold check_src2; try dsimp only
  split_ifs <;> simp

@[simp] lemma cs2_ff (w : Nat) (t3 : Int) (s : SimState) :
    (check_src2 w t3 s).forward_from = s.forward_from := by
  unfold check_src2; try dsimp only
  split_ifs <;> simp

@[simp] lemma cs2_sb (w : Nat) (t3 : Int) (s : SimState) :
    (check_src2 w t3 s).register_scoreboard = s.register_scoreboard := by
  unfold check_src2; try dsimp only
  split_ifs <;> simp

@[simp] lemma det_cc (s : SimState) :
    (detect_hazards s).current_cycle = s.current_cycle := by
  unfold detect_hazards; try dsimp only
  split_ifs <;> simp

@[simp] lemma det_tc (s : SimState) :
    (detect_hazards s).total_cycles = s.total_cycles := by
  unfold detect_hazards; try dsimp only
  split_ifs <;> simp

@[simp] lemma det_sb (s : SimState) :
    (detect_hazards s).register_scoreboard = s.register_scoreboard := by
  unfold detect_hazards; try dsimp only
  split_ifs <;> simp

lemma run_cycle_cc (s : SimState) :
    (run_cycle s).current_cycle = s.current_cycle + 1 := by
  unfold run_cycle; simp

lemma run_cycle_tc (s : SimState) :
    (run_cycle s).total_cycles = s.total_cycles + 1 := by
  unfold run_cycle; simp

@[simp] lemma calc_tc (s : SimState) :
    (calculate_metrics s).total_cycles = s.total_cycles := by
  unfold calculate_metrics
  split_ifs <;> rfl

@[simp] lemma calc_ti (s : SimState) :
    (calculate_metrics s).total_instructions = s.total_instructions := by
  unfold calculate_metrics
  split_ifs <;> rfl

@[simp] lemma calc_cc (s : SimState) :
    (calculate_metrics s).current_cycle = s.current_cycle := by
  unfold calculate_metrics
  split_ifs <;> rfl

@[simp] lemma calc_raw (s : SimState) :
    (calculate_metrics s).raw_hazards = s.raw_hazards := by
  unfold calculate_metrics
  split_ifs <;> rfl

@[simp] lemma calc_sb (s : SimState) :
    (calculate_metrics s).register_scoreboard = s.register_scoreboard := by
  unfold calculate_metrics
  split_ifs <;> rfl

@[simp] lemma calc_ff (s : SimState) :
    (calculate_metrics s).forward_from = s.forward_from := by
  unfold calculate_metrics
  split_ifs <;> rfl

@[simp] lemma calc_cond (s : SimState) :
    simulation_done_cond (calculate_metrics s) = simulation_done_cond s := by
  unfold calculate_metrics
  split_ifs <;> rfl

@[simp] lemma chk_cond (s : SimState) :
    simulation_done_cond (check_simulation_done s) = simulation_done_cond s := by
  unfold check_simulation_done
  split_ifs <;> rfl

lemma chk_flag (s : SimState) :
    (check_simulation_done s).simulation_done =
      if simulation_done_cond (check_simulation_done s) then 1 else 0 := by
  rw [chk_cond]
  unfold check_simulation_done
  split_ifs <;> rfl

lemma run_cycle_flag (s : SimState) :
    (run_cycle s).simulation_done =
      if simulation_done_cond (run_cycle s) then 1 else 0 := by
  unfold run_cycle; try dsimp only
  exact chk_flag _

lemma det_raw (s : SimState) :
    (detect_hazards s).raw_hazards = s.raw_hazards ∨
      (detect_hazards s).raw_hazards = 1 := by
  unfold detect_hazards; try dsimp only
  split_ifs <;> simp

lemma det_raw_le (s : SimState) (h : s.raw_hazards ≤ 1) :
    (detect_hazards s).raw_hazards ≤ 1 := by
  rcases det_raw s with h1 | h1 <;> omega

lemma run_cycle_raw_le (s : SimState) (h : s.raw_hazards ≤ 1) :
    (run_cycle s).raw_hazards ≤ 1 := by
  unfold run_cycle; try dsimp only
  simp only [chk_raw, rec_raw, fetch_raw, id_raw, ex_raw]
  apply det_raw_le
  simp only [mem_raw, wb_raw]
  exact h

lemma loop_raw_le (fuel : Nat) (s : SimState) (h : s.raw_hazards ≤ 1) :
    (simulation_loop fuel s).raw_hazards ≤ 1 := by
  induction fuel generalizing s with
  | zero => simpa [simulation_loop] using h
  | succ n ih =>
    rw [simulation_loop]; try dsimp only
    split_ifs
    · exact run_cycle_raw_le s h
    · exact ih _ (run_cycle_raw_le s h)
    · exact h

lemma sbr_WB (s : SimState) (h : scoreboard_range s) :
    scoreboard_range (process_WB_stage s) := by
  unfold scoreboard_range process_WB_stage at *; try dsimp only
  split_ifs
  · exact sb_set_range h (Or.inl rfl) _
  · exact h
  · exact h

lemma sbr_MEM (s : SimState) (h : scoreboard_range s) :
    scoreboard_range (process_MEM_stage s) := by
  unfold scoreboard_range process_MEM_stage at *; try dsimp only
  split_ifs
  · exact sb_set_range h (Or.inr (Or.inr rfl)) _
  · exact h

lemma sbr_EX (s : SimState) (h : scoreboard_range s) :
    scoreboard_range (process_EX_stage s) := by
  unfold scoreboard_range process_EX_stage at *; try dsimp only
  split_ifs
  · exact h
  · exact sb_set_range h (Or.inr (Or.inl rfl)) _
  · exact h

lemma sbr_det (s : SimState) (h : scoreboard_range s) :
    scoreboard_range (detect_hazards s) := by
  unfold scoreboard_range at *
  rw [det_sb]
  exact h

lemma ffr_det (s : SimState) (h : scoreboard_range s) :
    forward_from_range (detect_hazards s) := by
  unfold forward_from_range detect_hazards; try dsimp only
  split_ifs <;> try simp
  rename_i h5
  exfalso
  have h6 := getD_mem_or s.register_scoreboard s.stage_ID.src1.toNat 0
  rw [h5] at h6
  rcases h6 with hm | hd
  · rcases h 5 hm with h7 | h7 | h7 <;> omega
  · omega

lemma pipe_inv_run_cycle (s : SimState) (h : pipe_inv s) : pipe_inv (run_cycle s) := by
  obtain ⟨hsb, hff⟩ := h
  unfold run_cycle; try dsimp only
  have h1 : scoreboard_range { s with current_cycle := s.current_cycle + 1,
                                      total_cycles := s.total_cycles + 1 } := by
    unfold scoreboard_range at *; exact hsb
  have h2 := sbr_det _ (sbr_MEM _ (sbr_WB _ h1))
  constructor
  · unfold scoreboard_range at *
    rw [chk_sb, rec_sb, fetch_sb, id_sb]
    have h3 := sbr_EX _ h2
    unfold scoreboard_range at h3
    exact h3
  · unfold forward_from_range
    rw [chk_ff, rec_ff, fetch_ff, id_ff, ex_ff]
    have h4 := ffr_det _ (sbr_MEM _ (sbr_WB _ h1))
    unfold forward_from_range at h4
    exact h4

lemma pipe_inv_init (instrs : List Nat) (f b : Bool) :
    pipe_inv (init_pipeline instrs f b) := by
  constructor
  · intro x hx
    exact Or.inl (List.eq_of_mem_replicate hx)
  · exact Or.inl rfl

lemma pipe_inv_loop (fuel : Nat) (s : SimState) (h : pipe_inv s) :
    pipe_inv (simulation_loop fuel s) := by
  induction fuel generalizing s with
  | zero => simpa [simulation_loop] using h
  | succ n ih =>
    rw [simulation_loop]; try dsimp only
    split_ifs
    · exact pipe_inv_run_cycle s h
    · exact ih _ (pipe_inv_run_cycle s h)
    · exact h

lemma pipe_inv_iterate (n : Nat) (s : SimState) (h : pipe_inv s) :
    pipe_inv (cycle_iterate n s) := by
  induction n generalizing s with
  | zero => simpa [cycle_iterate] using h
  | succ m ih =>
    rw [cycle_iterate]
    exact ih _ (pipe_inv_run_cycle s h)

lemma pipe_inv_calc (s : SimState) (h : pipe_inv s) : pipe_inv (calculate_metrics s) := by
  obtain ⟨hsb, hff⟩ := h
  constructor
  · unfold scoreboard_range at *
    rw [calc_sb]
    exact hsb
  · unfold forward_from_range at *
    rw [calc_ff]
    exact hff

lemma pipe_inv_simulate (instrs : List Nat) (f b : Bool) :
    pipe_inv (simulate instrs f b) := by
  unfold simulate; try dsimp only
  split_ifs
  · exact pipe_inv_calc _ (pipe_inv_init instrs f b)
  · exact pipe_inv_calc _ (pipe_inv_loop 500 _ (pipe_inv_init instrs f b))

lemma loop_cycle_le (fuel : Nat) (s : SimState) (h : s.current_cycle < 500) :
    (simulation_loop fuel s).current_cycle ≤ 500 := by
  induction fuel generalizing s with
  | zero => simp only [simulation_loop]; omega
  | succ n ih =>
    rw [simulation_loop]; try dsimp only
    split_ifs with h1 h2
    · have := run_cycle_cc s; omega
    · have h3 := run_cycle_cc s
      exact ih _ (by omega)
    · omega

lemma loop_flag_bound (fuel : Nat) (s : SimState) (h : 500 ≤ s.current_cycle + fuel)
    (hd : (simulation_loop fuel s).simulation_done = 0) :
    500 ≤ (simulation_loop fuel s).current_cycle := by
  induction fuel generalizing s with
  | zero => simp only [simulation_loop] at *; omega
  | succ n ih =>
    rw [simulation_loop] at *; try dsimp only at *
    split_ifs at hd ⊢ with h1 h2
    · exact h2
    · have h3 := run_cycle_cc s
      exact ih _ (by omega) hd
    · omega

lemma loop_tc_eq_cc (fuel : Nat) (s : SimState) (h : s.total_cycles = s.current_cycle) :
    (simulation_loop fuel s).total_cycles = (simulation_loop fuel s).current_cycle := by
  induction fuel generalizing s with
  | zero => simpa [simulation_loop] using h
  | succ n ih =>
    rw [simulation_loop]; try dsimp only
    split_ifs
    · rw [run_cycle_cc, run_cycle_tc, h]
    · exact ih _ (by rw [run_cycle_cc, run_cycle_tc, h])
    · exact h

lemma loop_succ (n : Nat) (s : SimState) :
    simulation_loop (n + 1) s =
      if s.simulation_done = 0 then
        (if 500 ≤ (run_cycle s).current_cycle then run_cycle s
         else simulation_loop n (run_cycle s))
      else s := by
  rw [simulation_loop]

lemma loop_flag_cond (fuel : Nat) (s : SimState)
    (h : s.simulation_done = if simulation_done_cond s then 1 else 0) :
    (simulation_loop fuel s).simulation_done =
      if simulation_done_cond (simulation_loop fuel s) then 1 else 0 := by
  induction fuel generalizing s with
  | zero => simpa [simulation_loop] using h
  | succ n ih =>
    rw [loop_succ]
    by_cases h1 : s.simulation_done = 0
    · rw [if_pos h1]
      by_cases h2 : 500 ≤ (run_cycle s).current_cycle
      · rw [if_pos h2]
        exact run_cycle_flag s
      · rw [if_neg h2]
        exact ih _ (run_cycle_flag s)
    · rw [if_neg h1]
      exact h

/-! Claim theorems.  Each claim of the specification review is settled by one
theorem below; closed theorems evaluate the embedded simulator on concrete
programs. -/

/-- Claim C1.  The spec scenario add, lw, dependent add with forwarding on and
branch prediction off expects one load-use stall (stall_cycles = 1,
load_use_stalls = 1) and 3 completed instructions.  The code completes all 3
instructions but records no stall at all: because process_MEM_stage re-marks
the scoreboard with MEM (4) before detect_hazards runs, the dependency on the
lw result is resolved as an ordinary forward from MEM (forward_count = 3),
and stall_cycles = load_use_stalls = 0 over the 8-cycle run. -/
theorem claim1_scenario_metrics :
    (simulate prog_scenario true false).total_instructions = 3 ∧
    (simulate prog_scenario true false).stall_cycles = 0 ∧
    (simulate prog_scenario true false).load_use_stalls = 0 ∧
    (simulate prog_scenario true false).forward_count = 3 ∧
    (simulate prog_scenario true false).total_cycles = 8 := by decide

/-- Claim C2.  On a stall the code does write a bubble into EX and ID and
keeps IF, but the instruction that was in ID when the stall was decided is
destroyed by the ID bubble and never completes: running the two-instruction
dependent program with forwarding disabled stalls once and completes only 1
of the 2 supplied instructions. -/
theorem claim2_stall_loses_id :
    prog_dependent.length = 2 ∧
    (simulate prog_dependent false false).stall_cycles = 1 ∧
    (simulate prog_dependent false false).total_instructions = 1 := by decide

/-- Claim C3.  The canonical load-use pair lw then dependent add, with
forwarding enabled, is expected to report a LoadUse stall; the code instead
forwards from MEM with no stall, because the scoreboard entry visible to
detect_hazards is always 4 (MEM) rather than 3 (EX) by the time the
dependent instruction is in ID (process_MEM_stage runs before
detect_hazards each cycle), so the load-use branch never fires. -/
theorem claim3_loaduse_forwarded :
    (simulate prog_loaduse true false).load_use_stalls = 0 ∧
    (simulate prog_loaduse true false).stall_cycles = 0 ∧
    (simulate prog_loaduse true false).forward_count = 1 ∧
    (simulate prog_loaduse true false).total_instructions = 2 := by decide

/-- Claim C4 counterexample.  After cycle 4 of prog_chain raw_hazards is
already 1 and the ID instruction of cycle 5 hazards again on src1 = 11
(scoreboard entry nonzero), yet after cycle 5 raw_hazards is still 1, not 2:
the source stores the constant 1 instead of incrementing, and the whole run
ends with raw_hazards = 1 despite two forwarded hazard cycles
(forward_count = 2). -/
theorem claim4_raw_not_counter :
    (cycle_iterate 4 (init_pipeline prog_chain true false)).raw_hazards = 1 ∧
    (cycle_iterate 4 (init_pipeline prog_chain true false)).stage_ID.valid = 1 ∧
    (cycle_iterate 4 (init_pipeline prog_chain true false)).stage_ID.src1 = 11 ∧
    (cycle_iterate 4
      (init_pipeline prog_chain true false)).register_scoreboard.getD 11 0 = 3 ∧
    (cycle_iterate 5 (init_pipeline prog_chain true false)).raw_hazards = 1 ∧
    (simulate prog_chain true false).raw_hazards = 1 ∧
    (simulate prog_chain true false).forward_count = 2 := by decide

/-- Claim C4 amended.  raw_hazards is a flag, not a counter: every
detect_hazards call either leaves it unchanged or stores the constant 1
(only the src1 path touches it), and over any whole run raw_hazards is at
most 1. -/
theorem claim4_raw_flag_semantics :
    (∀ s : SimState, (detect_hazards s).raw_hazards = s.raw_hazards ∨
        (detect_hazards s).raw_hazards = 1) ∧
    (∀ (instrs : List Nat) (f b : Bool), (simulate instrs f b).raw_hazards ≤ 1) := by
  constructor
  · exact det_raw
  · intro instrs f b
    unfold simulate
    try dsimp only
    split_ifs
    · rw [calc_raw]
      norm_num [init_pipeline]
    · rw [calc_raw]
      exact loop_raw_le 500 _ (by norm_num [init_pipeline])

/-- Claim C5 counterexample.  In the lw then dependent add run with
forwarding enabled, the cycle-4 history entry shows a forward happened
(forward flag 1, forward_count incremented) but the recorded hazard kind for
that cycle is 0 (None), not 1 (RAW): the trailing no-hazard branch of
detect_hazards resets the kind after a successful forward of a non-branch
instruction. -/
theorem claim5_forward_kind_reset :
    ((simulate prog_loaduse true false).cycle_history.getD 3 hist0).cycle_num = 4 ∧
    ((simulate prog_loaduse true false).cycle_history.getD 3 hist0).forward_flag = 1 ∧
    ((simulate prog_loaduse true false).cycle_history.getD 3 hist0).hazard_type = 0 ∧
    ((simulate prog_loaduse true false).cycle_history.getD 3 hist0).stall_flag = 0 ∧
    (simulate prog_loaduse true false).forward_count = 1 := by decide

/-- Claim C5 amended.  When a RAW hazard on src1 of the valid ID instruction
is resolved by forwarding (forwarding enabled, producing stage MEM = 4, the
only producer stage observable at detection time), the report records the
source as from_stage 4, to_stage 2, register = src1 and forward_count is
incremented; but for a non-branch instruction with no src2 hazard the final
reported kind is 0 (None), not RAW, and stall_required stays 0, because the
no-hazard reset at the end of detection clears the transient RAW marking
(raw_hazards keeps the stored 1). -/
theorem claim5_forward_record (s : SimState) (r : Int)
    (hv : ¬ s.stage_ID.valid = 0)
    (hs1 : s.stage_ID.src1 = r) (hr : 0 < r)
    (hsb : s.register_scoreboard.getD r.toNat 0 = 4)
    (hs2 : s.stage_ID.src2 < 0)
    (hf : s.enable_forwarding = true)
    (hb : is_branch_instruction s.stage_ID.instr = false) :
    (detect_hazards s).forward_from = 4 ∧ (detect_hazards s).forward_to = 2 ∧
    (detect_hazards s).forward_reg = r ∧
    (detect_hazards s).forward_count = s.forward_count + 1 ∧
    (detect_hazards s).hazard_type = 0 ∧ (detect_hazards s).stall_required = 0 ∧
    (detect_hazards s).hazard_detected = 0 ∧ (detect_hazards s).raw_hazards = 1 := by
  have key : detect_hazards s =
      { s with hazard_detected := 0, hazard_type := 0, stall_required := 0,
               forward_from := 4, forward_to := 2, forward_reg := r,
               forward_count := s.forward_count + 1, raw_hazards := 1 } := by
    unfold detect_hazards
    try dsimp only
    rw [if_neg hv, hs1]
    rw [if_neg (show ¬ (r < 0) by omega), if_neg (show ¬ (r = 0) by omega), hsb]
    rw [if_neg (show ¬ ((4 : Nat) = 0) by decide)]
    rw [if_neg (fun h => absurd h.1 (show ¬ ((4 : Nat) = 3) by decide))]
    rw [hf]
    rw [if_neg (show ¬ (true = false) by decide)]
    rw [if_pos rfl]
    unfold check_src2
    try dsimp only
    rw [if_pos hs2]
    unfold check_control
    try dsimp only
    rw [hb]
    rw [if_neg (show ¬ (false = true) by decide)]
  rw [key]
  exact ⟨rfl, rfl, rfl, rfl, rfl, rfl, rfl, rfl⟩

/-- Witness for the amended claim C5, at a concrete state with a valid add in
ID, src1 = 5 and scoreboard entry 4 for register 5. -/
theorem claim5_forward_record_witness :
    (detect_hazards fwd_example_state).forward_from = 4 ∧
    (detect_hazards fwd_example_state).hazard_type = 0 ∧
    (detect_hazards fwd_example_state).forward_count =
      fwd_example_state.forward_count + 1 := by
  have h := claim5_forward_record fwd_example_state 5 (by decide) (by decide)
    (by decide) (by decide) (by decide) (by decide) (by decide)
  exact ⟨h.1, h.2.2.2.2.1, h.2.2.2.1⟩

/-- Claim C6 counterexample.  Register 0 is marked busy: already in cycle 1
of a single-add run the zero-initialized bubble slots (dest word 0, not -1)
make process_EX_stage store 3 into scoreboard entry 0, and the run ends with
entry 0 equal to 4. -/
theorem claim6_reg0_marked_busy :
    (cycle_iterate 1
      (init_pipeline prog_single true false)).register_scoreboard.getD 0 0 = 3 ∧
    (simulate prog_single true false).register_scoreboard.getD 0 0 = 4 := by decide

/-- Helper for the amended claim C6: behaviour of the check_control tail of
detect_hazards when the incoming stall word is 0. -/
lemma ctl_props (w : Nat) (s : SimState) (hstall : s.stall_required = 0) :
    (check_control w s).raw_hazards = s.raw_hazards ∧
    (check_control w s).load_use_stalls = s.load_use_stalls ∧
    (check_control w s).forward_count = s.forward_count ∧
    ((check_control w s).stall_required = 1 → is_branch_instruction w = true) := by
  unfold check_control
  try dsimp only
  split_ifs with hb hp
  · exact ⟨rfl, rfl, rfl, fun h => hb⟩
  · exact ⟨rfl, rfl, rfl, fun h => hb⟩
  · exact ⟨rfl, rfl, rfl, fun h => h.elim⟩

/-- Helper for the amended claim C6: check_src2 skips an operand that is
negative or register 0. -/
lemma cs2_props (w : Nat) (t3 : Int) (s : SimState) (h2 : t3 ≤ 0)
    (hstall : s.stall_required = 0) :
    (check_src2 w t3 s).raw_hazards = s.raw_hazards ∧
    (check_src2 w t3 s).load_use_stalls = s.load_use_stalls ∧
    (check_src2 w t3 s).forward_count = s.forward_count ∧
    ((check_src2 w t3 s).stall_required = 1 → is_branch_instruction w = true) := by
  unfold check_src2
  try dsimp only
  rcases (show t3 < 0 ∨ t3 = 0 by omega) with h | h
  · rw [if_pos h]
    exact ctl_props w s hstall
  · rw [if_neg (show ¬ (t3 < 0) by omega), if_pos h]
    exact ctl_props w s hstall

/-- Claim C6 amended.  Stage advances do mark register 0 busy, but the hazard
detector skips any operand that is negative or register 0: when both operands
of the ID instruction are at most 0, detect_hazards changes none of
raw_hazards, load_use_stalls and forward_count, and can only stall for a
control hazard (a branch in ID), never for a data hazard on register 0. -/
theorem claim6_reg0_skipped (s : SimState)
    (h1 : s.stage_ID.src1 ≤ 0) (h2 : s.stage_ID.src2 ≤ 0) :
    (detect_hazards s).raw_hazards = s.raw_hazards ∧
    (detect_hazards s).load_use_stalls = s.load_use_stalls ∧
    (detect_hazards s).forward_count = s.forward_count ∧
    ((detect_hazards s).stall_required = 1 →
      is_branch_instruction s.stage_ID.instr = true) := by
  unfold detect_hazards
  try dsimp only
  by_cases hv : s.stage_ID.valid = 0
  · rw [if_pos hv]
    exact ⟨rfl, rfl, rfl, fun h =>
      absurd (show (0 : Nat) = 1 from h) (by decide)⟩
  · rw [if_neg hv]
    rcases (show s.stage_ID.src1 < 0 ∨ s.stage_ID.src1 = 0 by omega) with h | h
    · rw [if_pos h]
      exact cs2_props _ _ _ h2 rfl
    · rw [if_neg (show ¬ (s.stage_ID.src1 < 0) by omega), if_pos h]
      exact cs2_props _ _ _ h2 rfl

/-- Witness for the amended claim C6, at a concrete state whose ID
instruction names register 0 for both operands while scoreboard entry 0 is
busy (3). -/
theorem claim6_reg0_skipped_witness :
    (detect_hazards zero_reg_state).raw_hazards = zero_reg_state.raw_hazards ∧
    (detect_hazards zero_reg_state).forward_count =
      zero_reg_state.forward_count := by
  have h := claim6_reg0_skipped zero_reg_state (by decide) (by decide)
  exact ⟨h.1, h.2.2.1⟩

/-- Claim C7.  In the single-add run the instruction (dest register 10)
completes, its scoreboard entry is cleared in that writeback cycle, but the
trailing invalid slots still carry the stale dest word 10 and re-mark the
entry (process_MEM_stage and process_EX_stage do not test the valid flag),
so the run terminates with scoreboard entry 10 equal to 3: the entry stays
busy after completion instead of returning to 0 one cycle later. -/
theorem claim7_scoreboard_stuck :
    (simulate prog_single true false).total_instructions = 1 ∧
    (simulate prog_single true false).register_scoreboard.getD 10 0 = 3 := by decide

/-- Claim C8 counterexample.  A single branch with prediction off stalls and
is destroyed, so nothing completes: the run has total_cycles = 3,
total_instructions = 0, and the reported CPI fallback is numerator 0 with
denominator 1 - the numerator does not correspond to total_cycles (neither 3
nor 300). -/
theorem claim8_cpi_zero_fallback :
    (simulate prog_branch true false).total_instructions = 0 ∧
    (simulate prog_branch true false).total_cycles = 3 ∧
    (simulate prog_branch true false).cpi_numerator = 0 ∧
    (simulate prog_branch true false).cpi_denominator = 1 := by decide

/-- Claim C8 amended.  At termination the reported CPI words are: denominator
= total_instructions when some instruction completed, else 1; numerator =
total_cycles * 100 (fixed point) when some instruction completed, else 0.
The denominator is always positive, so division by zero can never occur. -/
theorem claim8_cpi_formula (instrs : List Nat) (f b : Bool) :
    (simulate instrs f b).cpi_denominator =
      (if (simulate instrs f b).total_instructions = 0 then 1
       else (simulate instrs f b).total_instructions) ∧
    (simulate instrs f b).cpi_numerator =
      (if (simulate instrs f b).total_instructions = 0 then 0
       else (simulate instrs f b).total_cycles * 100) ∧
    0 < (simulate instrs f b).cpi_denominator := by
  have key : ∀ t : SimState,
      (calculate_metrics t).cpi_denominator =
        (if (calculate_metrics t).total_instructions = 0 then 1
         else (calculate_metrics t).total_instructions) ∧
      (calculate_metrics t).cpi_numerator =
        (if (calculate_metrics t).total_instructions = 0 then 0
         else (calculate_metrics t).total_cycles * 100) ∧
      0 < (calculate_metrics t).cpi_denominator := by
    intro t
    unfold calculate_metrics
    split_ifs with h
    · simp [h]
    · simp [h]
      omega
  unfold simulate
  try dsimp only
  by_cases h0 : (init_pipeline instrs f b).instruction_count = 0
  · rw [if_pos h0]
    exact key _
  · rw [if_neg h0]
    exact key _

/-- Claim C9.  For every input and both configuration flags the simulation
terminates with total_cycles at most 500, and when the termination condition
(all instructions fetched and all five slots invalid) still fails at the end
of the run, total_cycles is exactly the 500-cycle cap. -/
theorem claim9_cycle_cap (instrs : List Nat) (f b : Bool) :
    (simulate instrs f b).total_cycles ≤ 500 ∧
    (simulation_done_cond (simulate instrs f b) = false →
      (simulate instrs f b).total_cycles = 500) := by
  unfold simulate
  try dsimp only
  split_ifs with h0
  · constructor
    · rw [calc_tc]
      norm_num [init_pipeline]
    · intro hF
      rw [calc_cond] at hF
      have hcond : simulation_done_cond (init_pipeline instrs f b) = true := by
        simp [simulation_done_cond, init_pipeline]
        simpa [init_pipeline] using h0
      rw [hcond] at hF
      exact absurd hF (by decide)
  · have hinit_lt : (init_pipeline instrs f b).current_cycle < 500 := by
      norm_num [init_pipeline]
    have hcc := loop_cycle_le 500 (init_pipeline instrs f b) hinit_lt
    have htc := loop_tc_eq_cc 500 (init_pipeline instrs f b) rfl
    constructor
    · rw [calc_tc, htc]
      exact hcc
    · intro hF
      rw [calc_cond] at hF
      have hflag0 : (init_pipeline instrs f b).simulation_done =
          if simulation_done_cond (init_pipeline instrs f b) then 1 else 0 := by
        have hcf : simulation_done_cond (init_pipeline instrs f b) = false := by
          simp [simulation_done_cond, init_pipeline]
          intro hlen
          exact absurd (by simpa [init_pipeline] using hlen) h0
        rw [hcf]
        rfl
      have hflag := loop_flag_cond 500 (init_pipeline instrs f b) hflag0
      rw [hF] at hflag
      have hdone0 :
          (simulation_loop 500 (init_pipeline instrs f b)).simulation_done = 0 := by
        rw [hflag]
        rfl
      have h500 := loop_flag_bound 500 (init_pipeline instrs f b)
        (by norm_num [init_pipeline]) hdone0
      rw [calc_tc, htc]
      omega

set_option maxHeartbeats 4000000 in
/-- Witness for claim C9: the 501-NOP program cannot drain within the cap, so
its run ends with the termination condition still false and exactly 500
cycles. -/
theorem claim9_cycle_cap_witness :
    simulation_done_cond (simulate prog_cap true false) = false ∧
    (simulate prog_cap true false).total_cycles = 500 := by
  have h : simulation_done_cond (simulate prog_cap true false) = false := by decide
  exact ⟨h, (claim9_cycle_cap prog_cap true false).2 h⟩

/-- Claim C10.  In every state reached after any number of cycles, and in the
final result of every run, each scoreboard entry is 0, 3 or 4 (the value 5
for WB is never stored, so the forward-from-WB branch of the resolver can
never be taken) and the forward_from word is likewise always 0, 3 or 4. -/
theorem claim10_stage_codes (instrs : List Nat) (f b : Bool) (n : Nat) :
    pipe_inv (cycle_iterate n (init_pipeline instrs f b)) ∧
    pipe_inv (simulate instrs f b) :=
  ⟨pipe_inv_iterate n _ (pipe_inv_init instrs f b), pipe_inv_simulate instrs f b⟩

/-- Witness for claim C10 at a concrete program and cycle count. -/
theorem claim10_stage_codes_witness :
    forward_from_range (cycle_iterate 3 (init_pipeline prog_single true false)) :=
  (claim10_stage_codes prog_single true false 3).1.2
